import Mathlib

/-!
Verification development for the reddit trend-detector pipeline
(`main.py`, class `RedditTrendDetector`).  The Python source is shallowly
embedded: posts, comments, the velocity estimator, the buying-signal
extractor, the exclusion/inclusion qualification gate, the per-run
collection loop with its dedup set, the stable priority sort, and the
budgeted analysis loop are all translated into executable Lean
definitions.  Machine floats used for times and velocities are modelled
by rationals; Python lists by Lean lists; the in-run `set` of processed
post ids by a duplicate-free list grown by explicit membership checks.

Note on the source text: in the repository snapshot, the counting block
of `check_buying_signals` (lines 124-133), the buying-signal field block
of `send_discord_alert` (lines 317-323) and the `analyze_with_gpt` call
inside `scan` (lines 490-492) are dedented to column 0 / mis-indented,
which makes the module fail to parse as Python (`return` outside
function at line 135).  The definitions below restore those blocks to
the indentation the surrounding code evidently intends (the block
contents are kept verbatim); the claims touched by the mangled regions
are reported against both readings in the results.
-/

namespace TrendDetector

/-- A reddit comment as the detector uses it: only the text body matters
(`comment.body` is the single field read by the Python code). -/
structure Comment where
  body : String
deriving DecidableEq

/-- A reddit post snapshot: the fields of the praw submission object that
`main.py` reads (`id`, `title`, `score`, `created_utc`, `num_comments`),
plus the top-comment listing the code fetches per post
(`post.comments[:50]` after `replace_more(limit=0)`).  Times and scores
are numeric; `created_utc` is a float timestamp, modelled as a rational. -/
structure Post where
  id : String
  title : String
  score : Int
  created_utc : ℚ
  num_comments : Nat
  comments : List Comment
deriving DecidableEq

/-- The three velocity thresholds read from the environment in
`RedditTrendDetector.__init__` (`HIGH_VELOCITY`, `BUYING_VELOCITY`,
`NORMAL_VELOCITY`). -/
structure Config where
  HIGH_VELOCITY_THRESHOLD : ℚ
  BUYING_SIGNAL_VELOCITY : ℚ
  NORMAL_VELOCITY : ℚ
deriving DecidableEq

/-- The default thresholds: `1500`, `300`, `600` (the `int(os.environ.get(...))`
defaults in `__init__`). -/
def defaultConfig : Config := ⟨1500, 300, 600⟩

/-- Python `str.lower()`, restricted to the per-character lowering that the
ASCII denylists and phrases of this program exercise. -/
def lowerStr (s : String) : String := ⟨s.data.map Char.toLower⟩

/-- Contiguous-substring search on character lists: `listContains hay needle`
is true iff `needle` occurs (contiguously) inside `hay`, the semantics of
Python `needle in hay` on strings. -/
def listContains : List Char → List Char → Bool
  | [], needle => needle.isEmpty
  | c :: t, needle => needle.isPrefixOf (c :: t) || listContains t needle

/-- Python `needle in hay` for strings. -/
def strContains (hay needle : String) : Bool := listContains hay.data needle.data

/-- Helper for `wordCount`: walk the characters tracking whether the
previous character was inside a word, counting word starts. -/
def countWordsAux : List Char → Bool → Nat → Nat
  | [], _, n => n
  | c :: t, inWord, n =>
    if c.isWhitespace then countWordsAux t false n
    else if inWord then countWordsAux t true n
    else countWordsAux t true (n + 1)

/-- Python `len(title.split())`: the number of maximal whitespace-free runs
(`str.split()` with no separator splits on whitespace runs and drops empty
fields). -/
def wordCount (s : String) : Nat := countWordsAux s.data false 0

/-- `calculate_velocity` (main.py lines 387-392): upvotes per hour when the
post is between 30 minutes and 24 hours old (inclusive window), else `0`. -/
def calculate_velocity (post : Post) (now : ℚ) : ℚ :=
  let hours_old := (now - post.created_utc) / 3600
  if (1 / 2 : ℚ) ≤ hours_old ∧ hours_old ≤ 24 then (post.score : ℚ) / hours_old else 0

/-- The `buying_phrases` list of `check_buying_signals` (main.py lines
73-117), verbatim. -/
def buying_phrases : List String :=
  ["on a shirt", "on a t-shirt", "on a tshirt", "on a t shirt",
   "on a tee", "on a tee shirt", "on a teeshirt", "on my shirt",
   "on my t-shirt", "on a tank", "on a hoodie", "on merch",
   "make this a shirt", "make this a t-shirt", "make this a tee",
   "needs to be a shirt", "needs to be on a shirt",
   "need this on a", "put this on a", "get this on a",
   "someone make this", "someone put this", "please make this",
   "i\x27d wear", "would wear", "i\x27d buy", "would buy",
   "i\x27ll take", "ill take", "i want this", "i need this",
   "want one", "need one", "where can i", "where do i",
   "take my money", "shut up and take", "throwing money",
   "10/10 would buy", "10/10 would wear", "would cop",
   "instant buy", "instabuy", "insta buy", "buying this",
   "link to buy", "link?", "w2c", "where to cop",
   "merch idea", "merch potential", "merchandise this",
   "this is merch", "perfect for merch", "great merch",
   "wear the shit out of", "wear the hell out of",
   "wear this everywhere", "wear this daily",
   "rock this", "sport this", "flex this",
   "getting this for", "buy this for my", "gift idea",
   "perfect gift", "christmas gift", "birthday gift",
   "this is my motto", "my new motto", "life motto",
   "stealing this", "using this", "my new philosophy",
   "this is me", "literally me", "story of my life",
   "personal attack", "i feel attacked", "calling me out",
   "new favorite saying", "quote of the year",
   "need this energy", "this energy", "mood",
   "spirit animal", "my aesthetic", "vibe"]

/-- The body of the `for comment in comments` loop of
`check_buying_signals`, acting on the `(buying_count, quote_examples)`
accumulator: a comment whose lower-cased body contains any phrase bumps
the count once (the inner `for phrase` loop only prints), and the bodies
(truncated to 100 characters) of the first up to 3 matching comments are
kept as evidence. -/
def cbs_step (acc : Nat × List String) (comment : Comment) : Nat × List String :=
  let comment_lower := lowerStr comment.body
  if buying_phrases.any (fun phrase => strContains comment_lower phrase) then
    (acc.1 + 1, if acc.2.length < 3 then acc.2 ++ [comment.body.take 100] else acc.2)
  else acc

/-- `check_buying_signals` (main.py lines 71-135), with the mis-indented
counting block (lines 124-133) restored into the `for comment in comments`
loop as the surrounding code evidently intends. -/
def check_buying_signals (comments : List Comment) : Nat × List String :=
  comments.foldl cbs_step (0, [])

/-- The `avoid` brand/copyright denylist of `is_worth_analyzing`. -/
def avoid : List String :=
  ["disney", "marvel", "nike", "nintendo", "pokemon", "coca-cola",
   "mcdonalds", "star wars", "harry potter", "netflix", "spotify"]

/-- The `skip_terms` tragedy/news denylist of `is_worth_analyzing`. -/
def skip_terms : List String :=
  ["died", "killed", "arrested", "convicted", "sentenced",
   "breaking:", "update:", "megathread", "headline:"]

/-- The `news_patterns` denylist of `is_worth_analyzing`. -/
def news_patterns : List String :=
  ["judge finds", "report:", "study:", "poll:", "court rules", "lawsuit", "investigation"]

/-- The personal-story markers of `is_worth_analyzing`. -/
def personal_terms : List String :=
  ["my dad", "my mom", "my wife", "my husband", "my kid", "my son", "my daughter"]

/-- The interrogative words used by the question exclusion of
`is_worth_analyzing`. -/
def question_words : List String := ["what", "why", "how", "when", "where", "who"]

/-- Exclusion: title contains a copyrighted-brand term. -/
def brand_excluded (title_lower : String) : Bool :=
  avoid.any (fun brand => strContains title_lower brand)

/-- Exclusion: title contains a tragedy/news marker. -/
def skip_term_excluded (title_lower : String) : Bool :=
  skip_terms.any (fun term => strContains title_lower term)

/-- Exclusion: title longer than 100 characters (`len(post.title) > 100`). -/
def too_long (title : String) : Bool := decide (100 < title.length)

/-- Exclusion: at most two words (`len(post.title.split()) <= 2`). -/
def too_short (title : String) : Bool := decide (wordCount title ≤ 2)

/-- Python `title.strip().endswith("?")`: after discarding surrounding
whitespace, the last character is a question mark. -/
def ends_question (title : String) : Bool :=
  match title.data.reverse.dropWhile Char.isWhitespace with
  | [] => false
  | c :: _ => c == '?'

/-- Exclusion: stripped title ends in a question mark and the lower-cased
title contains an interrogative word. -/
def question_excluded (title title_lower : String) : Bool :=
  ends_question title && question_words.any (fun q => strContains title_lower q)

/-- Exclusion: title contains a personal-relation marker. -/
def personal_excluded (title_lower : String) : Bool :=
  personal_terms.any (fun p => strContains title_lower p)

/-- Exclusion: title matches a news-article pattern. -/
def newslike_excluded (title_lower : String) : Bool :=
  news_patterns.any (fun pat => strContains title_lower pat)

/-- The disjunction of every exclusion rule of `is_worth_analyzing`
(main.py lines 335-370): brand denylist, tragedy/news denylist, length cap,
and the stricter shape rules (word count, question form, personal story,
news-article pattern). -/
def excluded (post : Post) : Bool :=
  brand_excluded (lowerStr post.title) || skip_term_excluded (lowerStr post.title) ||
  too_long post.title || too_short post.title ||
  question_excluded post.title (lowerStr post.title) ||
  personal_excluded (lowerStr post.title) || newslike_excluded (lowerStr post.title)

/-- `is_worth_analyzing` (main.py lines 335-385): the exclusion rules in
source order, each an early `return False`; then the three inclusion
paths (high velocity; buying signals with lower velocity; normal velocity
with at least 20 comments); else `False`. -/
def is_worth_analyzing (cfg : Config) (post : Post) (velocity : ℚ)
    (has_buying_signals : Bool) : Bool :=
  if brand_excluded (lowerStr post.title) then false
  else if skip_term_excluded (lowerStr post.title) then false
  else if too_long post.title then false
  else if too_short post.title then false
  else if question_excluded post.title (lowerStr post.title) then false
  else if personal_excluded (lowerStr post.title) then false
  else if newslike_excluded (lowerStr post.title) then false
  else if decide (cfg.HIGH_VELOCITY_THRESHOLD ≤ velocity) then true
  else if has_buying_signals && decide (cfg.BUYING_SIGNAL_VELOCITY ≤ velocity) then true
  else if decide (cfg.NORMAL_VELOCITY ≤ velocity) && decide (20 ≤ post.num_comments) then true
  else false

/-- `determine_alert_path` (main.py lines 137-157): the satisfied paths in
fixed order.  Note the source requires `buying_count >= 2` for the
"BUYING SIGNALS" path and `buying_count >= 1` for "SIGNAL + VELOCITY". -/
def determine_alert_path (cfg : Config) (post : Post) (velocity : ℚ)
    (buying_count : Nat) : List String :=
  (if decide (cfg.HIGH_VELOCITY_THRESHOLD ≤ velocity) then ["🚀 HIGH VELOCITY"] else []) ++
  (if decide (2 ≤ buying_count) && decide (cfg.BUYING_SIGNAL_VELOCITY ≤ velocity) then
    ["💰 BUYING SIGNALS"] else []) ++
  (if decide (1 ≤ buying_count) && decide (cfg.NORMAL_VELOCITY ≤ velocity) then
    ["⭐ SIGNAL + VELOCITY"] else []) ++
  (if decide (100 < post.num_comments) && decide (cfg.NORMAL_VELOCITY ≤ velocity) then
    ["💬 HIGH ENGAGEMENT"] else [])

/-- A pool entry of `scan` (main.py lines 442-448): the candidate dict
appended to `all_candidates`, with `priority = velocity + (1000 if
quick_buying_count > 0 else 0)` (lines 436-439). -/
structure Candidate where
  post : Post
  velocity : ℚ
  buying_signals : Nat
  priority : ℚ
  subreddit : String
deriving DecidableEq

/-- The mutable state of the collecting phase of `scan`: the
`processed_posts` dedup set (modelled as the list of ids in insertion
order), the `all_candidates` pool, and a ghost log recording the order in
which post ids underwent qualification evaluation (the body guarded by
`velocity > 0`, lines 427-448). -/
structure ScanState where
  processed : List String
  candidates : List Candidate
  evalLog : List String
deriving DecidableEq

/-- The empty state every run starts from (`self.processed_posts = set()`,
`all_candidates = []`). -/
def initState : ScanState := ⟨[], [], []⟩

/-- One iteration of the inner `for post in posts_to_check` loop of `scan`
(main.py lines 420-450): skip ids already processed; otherwise compute the
velocity, and when it is positive scan the top 50 comments for buying
signals and run the `is_worth_analyzing` gate, appending a candidate with
its priority on success; finally add the post id to `processed_posts`
unconditionally. -/
def collect_post (cfg : Config) (now : ℚ) (sub : String) (st : ScanState)
    (post : Post) : ScanState :=
  if post.id ∈ st.processed then st
  else
    let velocity := calculate_velocity post now
    let st1 :=
      if 0 < velocity then
        let quick_buying_count := (check_buying_signals (post.comments.take 50)).1
        let st2 : ScanState := ⟨st.processed, st.candidates, st.evalLog ++ [post.id]⟩
        if is_worth_analyzing cfg post velocity (decide (0 < quick_buying_count)) then
          ⟨st2.processed,
           st2.candidates ++
             [⟨post, velocity, quick_buying_count,
               velocity + (if 0 < quick_buying_count then 1000 else 0), sub⟩],
           st2.evalLog⟩
        else st2
      else st
    ⟨st1.processed ++ [post.id], st1.candidates, st1.evalLog⟩

/-- The whole collecting phase: the posts of every monitored community
(`rising` then `hot` listings, concatenated per community and across
communities), fed through `collect_post` in order. -/
def collect_run (cfg : Config) (now : ℚ) (inputs : List (String × Post))
    (st : ScanState) : ScanState :=
  inputs.foldl (fun s pr => collect_post cfg now pr.1 s pr.2) st

/-- One step of stable descending insertion: place `x` before the first
element whose priority is at most that of `x`.  This realizes the semantics of
Python `list.sort(key=lambda x: x[\x27priority\x27], reverse=True)`, which is
the stable descending sort by priority (main.py line 465). -/
def insertDesc (x : Candidate) : List Candidate → List Candidate
  | [] => [x]
  | y :: ys => if y.priority ≤ x.priority then x :: y :: ys else y :: insertDesc x ys

/-- `all_candidates.sort(key=..., reverse=True)`: the stable descending
sort of the pool by priority. -/
def sortByPriority (l : List Candidate) : List Candidate := l.foldr insertDesc []

/-- A call of `send_discord_alert` as issued by the analysis loop of
`scan`: the path list and score it is invoked with. -/
structure AlertCall where
  paths : List String
  score : Int
deriving DecidableEq

/-- The state accumulated by the analysis loop of `scan` (lines 474-518):
the candidates for which the scorer was invoked, and the Discord alert
calls issued. -/
structure AnalysisState where
  scored : List Candidate
  alerts : List AlertCall
deriving DecidableEq

/-- One iteration of `for candidate in all_candidates[:30]` (main.py lines
474-518): re-extract buying signals from the top 50 comments, compute the
alert paths, and when the path list is non-empty invoke the scorer
(`analyze_with_gpt`, abstracted as the external `scoreOf`) and send a
Discord alert when the score is at least 7. -/
def analysis_step (cfg : Config) (scoreOf : Candidate → Int) (acc : AnalysisState)
    (c : Candidate) : AnalysisState :=
  let buying_count := (check_buying_signals (c.post.comments.take 50)).1
  let alert_paths := determine_alert_path cfg c.post c.velocity buying_count
  if alert_paths = [] then acc
  else
    let score := scoreOf c
    ⟨acc.scored ++ [c],
     if 7 ≤ score then acc.alerts ++ [⟨alert_paths, score⟩] else acc.alerts⟩

/-- The analysis phase of `scan`: only the head `all_candidates[:30]` of the
ranked pool is consumed (main.py line 474). -/
def analysis_run (cfg : Config) (scoreOf : Candidate → Int)
    (ranked : List Candidate) : AnalysisState :=
  (ranked.take 30).foldl (analysis_step cfg scoreOf) ⟨[], []⟩

/-- The beyond-budget diagnostic of `scan` (main.py lines 532-535): when
more than 30 candidates exist, only `all_candidates[30:35]` — the first
five candidates past the budget — are printed. -/
def missed_report (ranked : List Candidate) : List Candidate :=
  (ranked.drop 30).take 5

/-- The emoji pick at the top of `send_discord_alert` (main.py lines
280-284): reads `alert_paths[0]`; `none` models the `IndexError` that an
empty path list would raise. -/
def path_emoji (alert_paths : List String) : Option String :=
  match alert_paths with
  | [] => none
  | p :: _ =>
    some (if strContains p "BUYING SIGNALS" then "💰"
          else if strContains p "HIGH VELOCITY" then "🚀" else "🔥")

/-- The outcome of the HTTP call inside `analyze_with_gpt`: a 200 response
whose message content is `content`, a non-200 status, or a transport
exception. -/
inductive GptOutcome where
  | success (content : String)
  | httpError (status : Nat)
  | transportError
deriving DecidableEq

/-- The four fields `analyze_with_gpt` parses out of the scorer reply. -/
structure ScoreResult where
  score : Int
  analysis_text : String
  variations : String
  target : String
deriving DecidableEq

/-- The label-line parser of `analyze_with_gpt` (main.py lines 250-267):
scan the reply line by line; `SCORE:` takes the segment between the first
two colons as an integer (0 on failure), the other labels take everything
after the first colon, stripped. -/
def parse_gpt (analysis : String) : ScoreResult :=
  (analysis.splitOn "\n").foldl
    (fun acc line =>
      if line.startsWith "SCORE:" then
        { acc with score := ((((line.splitOn ":").getD 1 "").trim.toInt?).getD 0) }
      else if line.startsWith "ANALYSIS:" then
        { acc with analysis_text := (line.drop 9).trim }
      else if line.startsWith "VARIATIONS:" then
        { acc with variations := (line.drop 11).trim }
      else if line.startsWith "TARGET:" then
        { acc with target := (line.drop 7).trim }
      else acc)
    ⟨0, "", "", ""⟩

/-- A Python value returned in the result tuple of `analyze_with_gpt`. -/
inductive PyVal where
  | int (n : Int)
  | str (s : String)
  | strList (l : List String)
deriving DecidableEq

/-- The return tuple of `analyze_with_gpt` (main.py lines 269-276), modelled
by its list of components so the tuple arity is visible: the success path
returns five values `(score, analysis, variations, target,
buying_examples)`, while the non-200 path returns the four values
`(0, "API error", "", "")` and the exception path `(0, "Analysis failed",
"", "")`. -/
def analyze_with_gpt (outcome : GptOutcome) (buying_examples : List String) :
    List PyVal :=
  match outcome with
  | .success content =>
    let r := parse_gpt content
    [.int r.score, .str r.analysis_text, .str r.variations, .str r.target,
     .strList buying_examples]
  | .httpError _ => [.int 0, .str "API error", .str "", .str ""]
  | .transportError => [.int 0, .str "Analysis failed", .str "", .str ""]

/-- The call site in `scan` (main.py lines 490-492): `score, analysis,
variations, target, buying_examples = self.analyze_with_gpt(...)` —
tuple unpacking into five names, which raises `ValueError` unless the
returned tuple has exactly five components. -/
def unpack5 (vals : List PyVal) :
    Except String (PyVal × PyVal × PyVal × PyVal × PyVal) :=
  match vals with
  | [a, b, c, d, e] => Except.ok (a, b, c, d, e)
  | _ => Except.error "ValueError"

/-! Concrete fixtures used by counterexamples and witnesses. -/

/-- A post whose title passes every exclusion rule. -/
def cpost1 : Post := ⟨"c1", "running on coffee and anxiety", 800, 0, 50, []⟩

/-- A post aged exactly two hours at time `7200` with score `3000`. -/
def post5 : Post := ⟨"w5", "running on coffee and anxiety", 3000, 0, 0, []⟩

/-- A throwaway post carried inside ranking candidates. -/
def dpost : Post := ⟨"d0", "plain harmless title here", 0, 0, 0, []⟩

/-- A candidate with one buying signal and velocity 400
(priority `400 + 1000`). -/
def candA : Candidate := ⟨dpost, 400, 1, 1400, "memes"⟩

/-- A pure-velocity candidate with velocity 1500 and no buying signals
(priority `1500`). -/
def candB : Candidate := ⟨⟨"d1", "plain harmless title here", 0, 0, 0, []⟩, 1500, 0, 1500, "memes"⟩

/-- A pure-velocity candidate with velocity 2000 and no buying signals. -/
def candC : Candidate := ⟨⟨"d2", "plain harmless title here", 0, 0, 0, []⟩, 2000, 0, 2000, "memes"⟩

/-- A post observed twice in one run (hot and rising). -/
def post6 : Post := ⟨"p6", "running on coffee and anxiety", 3000, 0, 30, []⟩

/-- The `i`-th of a family of pairwise distinct high-velocity candidates
(distinguished by their comment counts). -/
def mkC (i : Nat) : Candidate :=
  ⟨⟨"p", "some plain words here", 100, 0, i, []⟩, 1500, 0, 1500, "memes"⟩

/-- A pool of 36 distinct candidates, six more than the analysis budget. -/
def bigPool : List Candidate := (List.range 36).map mkC

/-- A qualifying candidate used to drive one alert through the analysis
loop. -/
def cand10 : Candidate :=
  ⟨⟨"pX", "some plain words here", 2000, 0, 10, []⟩, 1500, 0, 1500, "memes"⟩

/-! Theorems. -/

/-- Helper: the running count of `check_buying_signals` adds, to the
incoming accumulator, one per comment whose lower-cased body contains at
least one buying phrase. -/
theorem cbs_foldl_count (l : List Comment) :
    ∀ acc : Nat × List String,
      (l.foldl cbs_step acc).1 =
        acc.1 +
          (l.filter
            (fun c => buying_phrases.any (fun p => strContains (lowerStr c.body) p))).length := by
  induction l with
  | nil => intro acc; simp
  | cons c t ih =>
    intro acc
    by_cases h : (buying_phrases.any (fun p => strContains (lowerStr c.body) p)) = true
    · simp only [List.foldl_cons, List.filter_cons, h, if_pos]
      rw [ih]
      simp [cbs_step, h]
      omega
    · simp only [List.foldl_cons, List.filter_cons, h]
      rw [ih]
      simp [cbs_step, h]

/-- C9: the count of the signal extractor equals the number of comments whose
lower-cased body contains at least one buying phrase as a substring (a
comment matching several phrases is counted exactly once, since the count
is per comment), and on an empty comment list the extractor returns
`(0, [])`.  (Stated of the evidently intended reading of
`check_buying_signals`; the committed source dedents the counting block
out of the loop, see the results notes.) -/
theorem signal_count_counts_matching_comments (comments : List Comment) :
    (check_buying_signals comments).1 =
      (comments.filter
        (fun c => buying_phrases.any (fun p => strContains (lowerStr c.body) p))).length ∧
    check_buying_signals ([] : List Comment) = (0, []) := by
  refine ⟨?_, rfl⟩
  simpa using cbs_foldl_count comments (0, [])

/-- C5: the velocity estimate equals `score / age_hours` exactly when
`age_hours = (now - created) / 3600` lies in the inclusive window
`[0.5, 24]`, and equals `0` whenever `age_hours` lies outside it. -/
theorem velocity_window_exact (post : Post) (now : ℚ) :
    ((1 / 2 : ℚ) ≤ (now - post.created_utc) / 3600 ∧ (now - post.created_utc) / 3600 ≤ 24 →
      calculate_velocity post now = (post.score : ℚ) / ((now - post.created_utc) / 3600)) ∧
    (((now - post.created_utc) / 3600 < 1 / 2 ∨ 24 < (now - post.created_utc) / 3600) →
      calculate_velocity post now = 0) := by
  constructor
  · intro h
    simp only [calculate_velocity, if_pos h]
  · intro h
    have hn : ¬ ((1 / 2 : ℚ) ≤ (now - post.created_utc) / 3600 ∧
        (now - post.created_utc) / 3600 ≤ 24) := by
      rcases h with h | h
      · exact fun hc => absurd hc.1 (not_le.mpr h)
      · exact fun hc => absurd hc.2 (not_le.mpr h)
    simp only [calculate_velocity, if_neg hn]

/-- Witness for C5: a post with score 3000 created two hours before `now`
has velocity `1500`. -/
theorem velocity_window_exact_witness : calculate_velocity post5 7200 = 1500 := by
  have h := (velocity_window_exact post5 7200).1 (by constructor <;> norm_num [post5])
  rw [h]
  norm_num [post5]

/-- C4: if any exclusion rule matches the title of the post (brand denylist,
tragedy/news denylist, length cap, or the stricter shape rules), the
pre-filter rejects the post regardless of velocity, buying signals or
comment count, and consequently the collecting loop appends no candidate
for it — the post never reaches `determine_alert_path`, so no satisfied
path is ever recorded for it. -/
theorem exclusion_dominant (cfg : Config) (post : Post) (velocity : ℚ) (b : Bool)
    (h : excluded post = true) :
    is_worth_analyzing cfg post velocity b = false ∧
    ∀ (now : ℚ) (sub : String) (st : ScanState),
      (collect_post cfg now sub st post).candidates = st.candidates := by
  have hiwa : ∀ (v : ℚ) (hb : Bool), is_worth_analyzing cfg post v hb = false := by
    intro v hb
    simp only [excluded, Bool.or_eq_true] at h
    rcases h with ((((((h | h) | h) | h) | h) | h) | h) <;> simp [is_worth_analyzing, h]
  refine ⟨hiwa velocity b, ?_⟩
  intro now sub st
  by_cases hmem : post.id ∈ st.processed
  · simp [collect_post, hmem]
  · by_cases hv : 0 < calculate_velocity post now
    · simp [collect_post, hmem, hv, hiwa]
    · simp [collect_post, hmem, hv]

/-- Witness for C4: a title containing the brand term "disney" is rejected
even with velocity 5000 and buying signals, and adds nothing to the pool. -/
theorem exclusion_dominant_witness :
    is_worth_analyzing defaultConfig ⟨"cx", "disney adults are wild people", 0, 0, 500, []⟩
        5000 true = false ∧
      (collect_post defaultConfig 7200 "memes" initState
          ⟨"cx", "disney adults are wild people", 0, 0, 500, []⟩).candidates =
        initState.candidates := by
  have h := exclusion_dominant defaultConfig
    ⟨"cx", "disney adults are wild people", 0, 0, 500, []⟩ 5000 true (by decide)
  exact ⟨h.1, h.2 7200 "memes" initState⟩

/-- C1 counterexample: a post passing every exclusion, with exactly one
buying-signal comment and velocity 400 ≥ buying threshold 300, is eligible
per the pre-filter, yet the "BUYING SIGNALS" path is not recorded —
`determine_alert_path` requires `buying_count >= 2`. -/
theorem buying_path_counterexample :
    excluded cpost1 = false ∧
    is_worth_analyzing defaultConfig cpost1 400 (decide (0 < 1)) = true ∧
    "💰 BUYING SIGNALS" ∉ determine_alert_path defaultConfig cpost1 400 1 := by
  decide

/-- C1 amended: for a post passing the exclusion stage with
`velocity >= buying_signal_threshold`, the presence of a buying signal
(`buying_signal_count >= 1`) makes the post eligible, and the
"BUYING SIGNALS" path is recorded as soon as `buying_signal_count >= 2`
(the Path B condition in the source). -/
theorem buying_path_amended (cfg : Config) (post : Post) (velocity : ℚ) (count : Nat)
    (hex : excluded post = false) (hv : cfg.BUYING_SIGNAL_VELOCITY ≤ velocity)
    (h1 : 1 ≤ count) :
    is_worth_analyzing cfg post velocity (decide (0 < count)) = true ∧
    (2 ≤ count → "💰 BUYING SIGNALS" ∈ determine_alert_path cfg post velocity count) := by
  simp only [excluded, Bool.or_eq_false_iff] at hex
  obtain ⟨⟨⟨⟨⟨⟨e1, e2⟩, e3⟩, e4⟩, e5⟩, e6⟩, e7⟩ := hex
  constructor
  · by_cases hH : cfg.HIGH_VELOCITY_THRESHOLD ≤ velocity
    · simp [is_worth_analyzing, e1, e2, e3, e4, e5, e6, e7, hH]
    · have hc : 0 < count := h1
      simp [is_worth_analyzing, e1, e2, e3, e4, e5, e6, e7, hH, hv, hc]
  · intro h2
    simp [determine_alert_path, h2, hv]

/-- Witness for C1: with the default thresholds
(`buying_signal_threshold = 300`), a clean post with velocity 400 and two
buying-signal comments is eligible and qualifies via the "BUYING SIGNALS"
path. -/
theorem buying_path_amended_witness :
    is_worth_analyzing defaultConfig cpost1 400 (decide (0 < 2)) = true ∧
    "💰 BUYING SIGNALS" ∈ determine_alert_path defaultConfig cpost1 400 2 := by
  have h := buying_path_amended defaultConfig cpost1 400 2 (by decide) (by decide) (by decide)
  exact ⟨h.1, h.2 (by decide)⟩

/-- Helper: inserting preserves the multiset of candidates. -/
theorem insertDesc_perm (x : Candidate) (l : List Candidate) :
    (insertDesc x l).Perm (x :: l) := by
  induction l with
  | nil => exact List.Perm.refl _
  | cons y ys ih =>
    by_cases h : y.priority ≤ x.priority
    · simp [insertDesc, h]
    · simp only [insertDesc, if_neg h]
      exact (ih.cons y).trans (List.Perm.swap x y ys)

/-- Helper: the ranked pool is a permutation of the collected pool. -/
theorem sortByPriority_perm (l : List Candidate) : (sortByPriority l).Perm l := by
  induction l with
  | nil => exact List.Perm.refl _
  | cons c t ih =>
    exact (insertDesc_perm c (sortByPriority t)).trans (ih.cons c)

/-- Helper: inserting into a descending-sorted list keeps it sorted. -/
theorem insertDesc_pairwise (x : Candidate) (l : List Candidate)
    (h : l.Pairwise (fun a b => b.priority ≤ a.priority)) :
    (insertDesc x l).Pairwise (fun a b => b.priority ≤ a.priority) := by
  induction l with
  | nil => simp [insertDesc]
  | cons y ys ih =>
    rcases List.pairwise_cons.mp h with ⟨hy, hys⟩
    by_cases hxy : y.priority ≤ x.priority
    · simp only [insertDesc, if_pos hxy]
      refine List.pairwise_cons.mpr ⟨?_, h⟩
      intro z hz
      rcases List.mem_cons.mp hz with rfl | hz2
      · exact hxy
      · exact le_trans (hy z hz2) hxy
    · simp only [insertDesc, if_neg hxy]
      refine List.pairwise_cons.mpr ⟨?_, ih hys⟩
      intro z hz
      rcases List.mem_cons.mp ((insertDesc_perm x ys).mem_iff.mp hz) with rfl | hz3
      · exact le_of_lt (not_le.mp hxy)
      · exact hy z hz3

/-- Helper: the ranked pool is sorted by non-increasing priority. -/
theorem sortByPriority_pairwise (l : List Candidate) :
    (sortByPriority l).Pairwise (fun a b => b.priority ≤ a.priority) := by
  induction l with
  | nil => simp [sortByPriority]
  | cons c t ih => exact insertDesc_pairwise c (sortByPriority t) ih

/-- Helper: inserting puts the new candidate in front of every equal-priority
candidate already present, so the equal-priority fiber of the result is the
new candidate (if it belongs to the fiber) followed by the old fiber. -/
theorem insertDesc_filter (x : Candidate) (l : List Candidate) (w : ℚ) :
    (insertDesc x l).filter (fun c => decide (c.priority = w)) =
      if x.priority = w then
        x :: l.filter (fun c => decide (c.priority = w))
      else l.filter (fun c => decide (c.priority = w)) := by
  induction l with
  | nil => by_cases h : x.priority = w <;> simp [insertDesc, h]
  | cons y ys ih =>
    by_cases hxy : y.priority ≤ x.priority
    · simp only [insertDesc, if_pos hxy]
      by_cases hx : x.priority = w <;> simp [List.filter_cons, hx]
    · simp only [insertDesc, if_neg hxy]
      have hlt : x.priority < y.priority := not_le.mp hxy
      by_cases hx : x.priority = w
      · have hy : ¬ y.priority = w := by
          intro hyw
          exact absurd (hyw.trans hx.symm) (ne_of_gt hlt)
        simp [List.filter_cons, hy, ih, hx]
      · simp [List.filter_cons, ih, hx]

/-- Helper: sorting preserves every equal-priority fiber, i.e. candidates of
equal priority keep their discovery order. -/
theorem sortByPriority_stable (l : List Candidate) (w : ℚ) :
    (sortByPriority l).filter (fun c => decide (c.priority = w)) =
      l.filter (fun c => decide (c.priority = w)) := by
  induction l with
  | nil => rfl
  | cons c t ih =>
    show (insertDesc c (sortByPriority t)).filter _ = _
    rw [insertDesc_filter]
    by_cases hc : c.priority = w <;> simp [hc, ih, List.filter_cons]

/-- C8: ranking is monotonic and stable — in the ranked pool a candidate
never appears after one of strictly smaller priority weight (positions
increase only as priority does not increase), and the subsequence of
candidates sharing any fixed priority weight is exactly their original
discovery-order subsequence. -/
theorem rank_monotonic_stable (pool : List Candidate) :
    (∀ i j : Fin (sortByPriority pool).length, i < j →
      ((sortByPriority pool).get j).priority ≤ ((sortByPriority pool).get i).priority) ∧
    ∀ w : ℚ,
      (sortByPriority pool).filter (fun c => decide (c.priority = w)) =
        pool.filter (fun c => decide (c.priority = w)) := by
  refine ⟨?_, sortByPriority_stable pool⟩
  intro i j hij
  exact List.pairwise_iff_get.mp (sortByPriority_pairwise pool) i j hij

/-- Witness for C8: in the ranked two-candidate pool `[candA, candB]` the
later entry has the smaller priority, and the fiber at priority 1400 is
preserved. -/
theorem rank_monotonic_stable_witness :
    ((sortByPriority [candA, candB]).get ⟨1, by decide⟩).priority ≤
      ((sortByPriority [candA, candB]).get ⟨0, by decide⟩).priority ∧
    (sortByPriority [candA, candB]).filter (fun c => decide (c.priority = 1400)) =
      [candA, candB].filter (fun c => decide (c.priority = 1400)) :=
  ⟨(rank_monotonic_stable [candA, candB]).1 ⟨0, by decide⟩ ⟨1, by decide⟩ (by decide),
   (rank_monotonic_stable [candA, candB]).2 1400⟩

/-- C2 counterexample: `candA` carries a buying signal (velocity 400,
priority 1400), `candB` carries none (velocity 1500, priority 1500); both
priorities follow the source formula `velocity + (1000 if buying_signals else 0)`, yet ranking places the signal-free `candB` first — the 1000
bonus does not dominate arbitrary velocities. -/
theorem buying_bonus_counterexample :
    0 < candA.buying_signals ∧ candB.buying_signals = 0 ∧
    candA.priority = candA.velocity + 1000 ∧ candB.priority = candB.velocity + 0 ∧
    sortByPriority [candA, candB] = [candB, candA] := by
  refine ⟨by decide, by decide, by norm_num [candA], by norm_num [candB], by decide⟩

/-- C2 amended: in a ranked pool whose priorities follow the formula of the source, whenever a zero-signal candidate precedes a buying-signal
candidate, the velocity of the zero-signal candidate is at least the
velocity of the buying-signal candidate plus the 1000 bonus; equivalently a
buying-signal candidate sorts ahead of every zero-signal candidate whose
velocity advantage is below 1000 (not regardless of velocities). -/
theorem buying_bonus_amended (pool : List Candidate)
    (hwf : ∀ c ∈ pool,
      c.priority = c.velocity + (if 0 < c.buying_signals then (1000 : ℚ) else 0))
    (i j : Fin (sortByPriority pool).length) (hij : i < j)
    (hi : ((sortByPriority pool).get i).buying_signals = 0)
    (hj : 0 < ((sortByPriority pool).get j).buying_signals) :
    ((sortByPriority pool).get j).velocity + 1000 ≤
      ((sortByPriority pool).get i).velocity := by
  have hle := List.pairwise_iff_get.mp (sortByPriority_pairwise pool) i j hij
  have hmi : (sortByPriority pool).get i ∈ pool :=
    (sortByPriority_perm pool).mem_iff.mp (List.get_mem _ i.1 i.2)
  have hmj : (sortByPriority pool).get j ∈ pool :=
    (sortByPriority_perm pool).mem_iff.mp (List.get_mem _ j.1 j.2)
  have wi : ((sortByPriority pool).get i).priority =
      ((sortByPriority pool).get i).velocity := by
    rw [hwf _ hmi, hi]
    norm_num
  have wj := hwf _ hmj
  rw [if_pos hj] at wj
  rw [wi, wj] at hle
  exact hle

/-- Witness for C2: in the pool `[candA, candC]` (signal candidate with
velocity 400, signal-free candidate with velocity 2000) the ranked list
puts `candC` first, and indeed its velocity exceeds that of `candA` by at least
the 1000 bonus. -/
theorem buying_bonus_amended_witness :
    ((sortByPriority [candA, candC]).get ⟨1, by decide⟩).velocity + 1000 ≤
      ((sortByPriority [candA, candC]).get ⟨0, by decide⟩).velocity :=
  buying_bonus_amended [candA, candC]
    (by
      intro c hc
      rcases List.mem_cons.mp hc with rfl | hc2
      · norm_num [candA]
      · rcases List.mem_singleton.mp hc2 with rfl
        norm_num [candC])
    ⟨0, by decide⟩ ⟨1, by decide⟩ (by decide) (by decide) (by decide)

/-- Helper: one collecting step either skips an already-processed post
entirely, or appends the post id to the dedup set and logs at most one
qualification evaluation of it. -/
theorem collect_post_cases (cfg : Config) (now : ℚ) (sub : String) (st : ScanState)
    (post : Post) :
    (post.id ∈ st.processed ∧ collect_post cfg now sub st post = st) ∨
    (post.id ∉ st.processed ∧
      (collect_post cfg now sub st post).processed = st.processed ++ [post.id] ∧
      ((collect_post cfg now sub st post).evalLog = st.evalLog ∨
        (collect_post cfg now sub st post).evalLog = st.evalLog ++ [post.id])) := by
  by_cases hmem : post.id ∈ st.processed
  · left
    exact ⟨hmem, by simp [collect_post, hmem]⟩
  · right
    refine ⟨hmem, ?_, ?_⟩
    · simp only [collect_post, if_neg hmem]
      split
      · split <;> rfl
      · rfl
    · simp only [collect_post, if_neg hmem]
      split
      · split
        · right; rfl
        · right; rfl
      · left; rfl

/-- Helper: the dedup set only grows along the run. -/
theorem collect_run_processed_mono (cfg : Config) (now : ℚ)
    (inputs : List (String × Post)) :
    ∀ st : ScanState, st.processed ⊆ (collect_run cfg now inputs st).processed := by
  induction inputs with
  | nil => intro st; simp [collect_run]
  | cons p t ih =>
    intro st
    have hstep : st.processed ⊆ (collect_post cfg now p.1 st p.2).processed := by
      rcases collect_post_cases cfg now p.1 st p.2 with ⟨_, heq⟩ | ⟨_, hproc, _⟩
      · rw [heq]; exact fun a ha => ha
      · rw [hproc]; exact List.subset_append_left _ _
    exact hstep.trans (ih (collect_post cfg now p.1 st p.2))

/-- The run invariant behind the dedup guarantee: the evaluation log is
duplicate-free and only contains ids already in the dedup set. -/
def EvalInv (st : ScanState) : Prop :=
  st.evalLog.Nodup ∧ ∀ id ∈ st.evalLog, id ∈ st.processed

/-- Helper: every collecting step preserves the dedup invariant. -/
theorem collect_post_EvalInv (cfg : Config) (now : ℚ) (sub : String) (st : ScanState)
    (post : Post) (h : EvalInv st) : EvalInv (collect_post cfg now sub st post) := by
  obtain ⟨hnd, hsub⟩ := h
  rcases collect_post_cases cfg now sub st post with ⟨_, heq⟩ | ⟨hmem, hproc, hlog⟩
  · rw [heq]; exact ⟨hnd, hsub⟩
  · have hnotlog : post.id ∉ st.evalLog := fun hc => hmem (hsub _ hc)
    constructor
    · rcases hlog with hl | hl <;> rw [hl]
      · exact hnd
      · simp [List.nodup_append, hnd, hnotlog]
    · intro id hid
      rw [hproc]
      rcases hlog with hl | hl <;> rw [hl] at hid
      · exact List.mem_append_left _ (hsub _ hid)
      · rcases List.mem_append.mp hid with hid2 | hid2
        · exact List.mem_append_left _ (hsub _ hid2)
        · exact List.mem_append_right _ hid2

/-- Helper: the whole collecting phase preserves the dedup invariant. -/
theorem collect_run_EvalInv (cfg : Config) (now : ℚ) (inputs : List (String × Post)) :
    ∀ st : ScanState, EvalInv st → EvalInv (collect_run cfg now inputs st) := by
  induction inputs with
  | nil => intro st h; simpa [collect_run] using h
  | cons p t ih =>
    intro st h
    exact ih (collect_post cfg now p.1 st p.2) (collect_post_EvalInv cfg now p.1 st p.2 h)

/-- C6: within a single run no post id undergoes qualification evaluation
more than once, even when the same post occurs several times in the fetched
listings (hot and rising), and every observed post id ends up in the dedup
set — it is inserted the first time the post is observed, whether or not it
qualified. -/
theorem dedup_no_reevaluation (cfg : Config) (now : ℚ)
    (inputs : List (String × Post)) :
    (collect_run cfg now inputs initState).evalLog.Nodup ∧
    ∀ pr ∈ inputs, pr.2.id ∈ (collect_run cfg now inputs initState).processed := by
  constructor
  · exact (collect_run_EvalInv cfg now inputs initState (by simp [EvalInv, initState])).1
  · have hobs : ∀ (l : List (String × Post)) (st : ScanState), ∀ pr ∈ l,
        pr.2.id ∈ (collect_run cfg now l st).processed := by
      intro l
      induction l with
      | nil => intro st pr hpr; exact absurd hpr (List.not_mem_nil pr)
      | cons p t ih =>
        intro st pr hpr
        rcases List.mem_cons.mp hpr with rfl | hpr2
        · have hstep : pr.2.id ∈ (collect_post cfg now pr.1 st pr.2).processed := by
            rcases collect_post_cases cfg now pr.1 st pr.2 with ⟨hmem, heq⟩ | ⟨_, hproc, _⟩
            · rw [heq]; exact hmem
            · rw [hproc]; exact List.mem_append_right _ (List.mem_singleton_self _)
          exact collect_run_processed_mono cfg now t _ hstep
        · exact ih (collect_post cfg now p.1 st p.2) pr hpr2
    exact hobs inputs initState

/-- Witness for C6: a post fetched twice in the same run (once via rising,
once via hot) is recorded in the dedup set. -/
theorem dedup_no_reevaluation_witness :
    post6.id ∈
      (collect_run defaultConfig 7200 [("memes", post6), ("memes", post6)]
        initState).processed :=
  (dedup_no_reevaluation defaultConfig 7200 [("memes", post6), ("memes", post6)]).2
    ("memes", post6) (by decide)

/-- Helper: the candidates the analysis loop scores form a subsequence of
the already-accumulated candidates followed by the candidates it walks. -/
theorem analysis_foldl_scored (cfg : Config) (scoreOf : Candidate → Int)
    (l : List Candidate) :
    ∀ acc : AnalysisState,
      (l.foldl (analysis_step cfg scoreOf) acc).scored.Sublist (acc.scored ++ l) := by
  induction l with
  | nil => intro acc; simp
  | cons c t ih =>
    intro acc
    have hstep : (analysis_step cfg scoreOf acc c).scored = acc.scored ∨
        (analysis_step cfg scoreOf acc c).scored = acc.scored ++ [c] := by
      simp only [analysis_step]
      split
      · left; rfl
      · right; rfl
    rw [List.foldl_cons]
    have h := ih (analysis_step cfg scoreOf acc c)
    rcases hstep with he | he <;> rw [he] at h
    · refine h.trans ?_
      exact List.Sublist.append_left (List.sublist_cons_self c t) acc.scored
    · refine h.trans ?_
      rw [List.append_assoc]
      exact List.Sublist.refl _

/-- C7 amended: the analysis phase consumes only the head
`all_candidates[:30]` of the ranked pool — the scored candidates form a
subsequence of the first 30, so at most 30 scorer calls are issued
whatever the pool size — and the beyond-budget diagnostic reports only
`all_candidates[30:35]`, the first five unscored candidates. -/
theorem budget_head_only (cfg : Config) (scoreOf : Candidate → Int)
    (ranked : List Candidate) :
    (analysis_run cfg scoreOf ranked).scored.Sublist (ranked.take 30) ∧
    (analysis_run cfg scoreOf ranked).scored.length ≤ 30 ∧
    missed_report ranked = (ranked.drop 30).take 5 := by
  have h : (analysis_run cfg scoreOf ranked).scored.Sublist (ranked.take 30) := by
    have := analysis_foldl_scored cfg scoreOf (ranked.take 30) ⟨[], []⟩
    simpa using this
  exact ⟨h, le_trans h.length_le (List.length_take_le 30 ranked), rfl⟩

/-- C7 counterexample: in a pool of 36 candidates the 36th is neither
scored (it is beyond the budget of 30) nor present in the beyond-budget
diagnostic, which reports only the first five missed candidates — so
beyond-budget candidates are not, in general, reported in diagnostics. -/
theorem budget_diagnostics_counterexample :
    mkC 35 ∈ bigPool ∧
    mkC 35 ∉ (analysis_run defaultConfig (fun _ => 9) bigPool).scored ∧
    mkC 35 ∉ missed_report bigPool := by
  decide

/-- Helper: every alert the analysis loop emits carries a non-empty path
list and a score of at least 7. -/
theorem analysis_foldl_alerts (cfg : Config) (scoreOf : Candidate → Int)
    (l : List Candidate) :
    ∀ acc : AnalysisState,
      (∀ a ∈ acc.alerts, a.paths ≠ [] ∧ 7 ≤ a.score) →
      ∀ a ∈ (l.foldl (analysis_step cfg scoreOf) acc).alerts,
        a.paths ≠ [] ∧ 7 ≤ a.score := by
  induction l with
  | nil => intro acc h; simpa using h
  | cons c t ih =>
    intro acc hacc
    rw [List.foldl_cons]
    apply ih
    intro a ha
    simp only [analysis_step] at ha
    by_cases hp : determine_alert_path cfg c.post c.velocity
        ((check_buying_signals (c.post.comments.take 50)).1) = []
    · rw [if_pos hp] at ha
      exact hacc a ha
    · rw [if_neg hp] at ha
      simp only at ha
      by_cases hs : (7 : Int) ≤ scoreOf c
      · rw [if_pos hs] at ha
        rcases List.mem_append.mp ha with h2 | h2
        · exact hacc a h2
        · rcases List.mem_singleton.mp h2 with rfl
          exact ⟨hp, hs⟩
      · rw [if_neg hs] at ha
        exact hacc a ha

/-- C10: every Discord alert call the analysis loop issues has a non-empty
`alert_paths` list (the loop guards on `if alert_paths:` and on
`score >= 7`), so the `alert_paths[0]` access inside `send_discord_alert`
is always in bounds — `path_emoji` never hits its out-of-bounds case. -/
theorem alert_access_in_bounds (cfg : Config) (scoreOf : Candidate → Int)
    (ranked : List Candidate) (a : AlertCall)
    (ha : a ∈ (analysis_run cfg scoreOf ranked).alerts) :
    a.paths ≠ [] ∧ 7 ≤ a.score ∧ (path_emoji a.paths).isSome = true := by
  have h := analysis_foldl_alerts cfg scoreOf (ranked.take 30) ⟨[], []⟩
    (by intro a ha2; exact absurd ha2 (List.not_mem_nil a)) a ha
  refine ⟨h.1, h.2, ?_⟩
  cases hpa : a.paths with
  | nil => exact absurd hpa h.1
  | cons p rest => simp [path_emoji, hpa]

/-- Witness for C10: running the analysis loop on one qualifying candidate
issues one alert, whose path list is non-empty and whose emoji lookup
succeeds. -/
theorem alert_access_in_bounds_witness :
    (⟨["🚀 HIGH VELOCITY"], 9⟩ : AlertCall).paths ≠ [] ∧
    (7 : Int) ≤ (⟨["🚀 HIGH VELOCITY"], 9⟩ : AlertCall).score ∧
    (path_emoji (⟨["🚀 HIGH VELOCITY"], 9⟩ : AlertCall).paths).isSome = true :=
  alert_access_in_bounds defaultConfig (fun _ => 9) [cand10]
    ⟨["🚀 HIGH VELOCITY"], 9⟩ (by decide)

/-- C3: on a non-200 scorer response or a transport exception,
`analyze_with_gpt` returns a 4-tuple (`(0, "API error", "", "")` or
`(0, "Analysis failed", "", "")`), while the call site in `scan` unpacks
five values — the unpacking raises `ValueError` instead of recording the
zero score; only the success path returns the five values the caller
expects. -/
theorem gpt_error_tuple_mismatch (status : Nat) (ex : List String) :
    unpack5 (analyze_with_gpt (GptOutcome.httpError status) ex) =
      Except.error "ValueError" ∧
    unpack5 (analyze_with_gpt GptOutcome.transportError ex) =
      Except.error "ValueError" ∧
    ∀ content, ∃ t,
      unpack5 (analyze_with_gpt (GptOutcome.success content) ex) = Except.ok t := by
  exact ⟨rfl, rfl, fun content => ⟨_, rfl⟩⟩

end TrendDetector
